import Mathlib

/-!
# Navigation menu configuration

A shallow embedding of `frontend/src/configs/navigation.js`.  The module is a
data literal: one default export (the main navigation list) and two named
exports, `UserMenu` and `NotLoggedInMenu`.  Every entry is an object literal
with the properties `title`, `href`, `auth` and, in `UserMenu` only, `icon`.

The `icon` property holds a JSX element `<Icons.X />`, built from the member
`X` of the object imported from `../components/icons`.  That module is not
part of the sources at hand, so an element is recorded by the name of the
member it is built from; what the member renders plays no part below.
-/

namespace Navigation

/-- The JSX element `<Icons.X />`: an element whose component is the member
`X` of the imported `Icons` object. -/
structure IconElement where
  /-- Name of the member of `Icons` used as the component of the element. -/
  component : String
deriving DecidableEq, Repr

/-- One object literal of a menu array.  A property the literal does not
write (`icon` outside `UserMenu`) is `none`. -/
structure MenuEntry where
  title : String
  href : String
  auth : Bool
  icon : Option IconElement
deriving DecidableEq, Repr

/-- The default export: the main navigation list (source lines 3 to 17). -/
def navigation : List MenuEntry :=
  [ { title := "Альбомы", href := "/recipes", auth := false, icon := none },
    { title := "Создать альбом", href := "/recipes/create", auth := true, icon := none },
    { title := "О проекте", href := "/about", auth := false, icon := none } ]

/-- The export `UserMenu` (source lines 19 to 37). -/
def UserMenu : List MenuEntry :=
  [ { title := "Мои подписки", href := "/subscriptions", auth := true,
      icon := some ⟨"SubscriptionsMenu"⟩ },
    { title := "Избранное", href := "/favorites", auth := true,
      icon := some ⟨"SavedMenu"⟩ },
    { title := "Сменить пароль", href := "/change-password", auth := true,
      icon := some ⟨"ResetPasswordMenu"⟩ } ]

/-- The export `NotLoggedInMenu` (source lines 39 to 49). -/
def NotLoggedInMenu : List MenuEntry :=
  [ { title := "Войти", href := "/signin", auth := false, icon := none },
    { title := "Создать аккаунт", href := "/signup", auth := false, icon := none } ]

/-- The three exported lists, in the order the module declares them. -/
def allLists : List (List MenuEntry) :=
  [navigation, UserMenu, NotLoggedInMenu]

/-- Every entry of the module, list after list. -/
def allEntries : List MenuEntry :=
  navigation ++ UserMenu ++ NotLoggedInMenu

/-- The `href` values of a list, in list order. -/
def hrefs (l : List MenuEntry) : List String :=
  l.map MenuEntry.href

/-- The `title` values of a list, in list order. -/
def titles (l : List MenuEntry) : List String :=
  l.map MenuEntry.title

/-- The entries a consumer keeps when it filters by `auth == true`
(JavaScript `list.filter(e => e.auth == true)`). -/
def authOnly (l : List MenuEntry) : List MenuEntry :=
  l.filter (fun e => e.auth == true)

/-- The icon component names a list refers to, in list order; entries without
an `icon` property contribute nothing. -/
def iconNames (l : List MenuEntry) : List String :=
  l.filterMap (fun e => e.icon.map IconElement.component)

/-- Whether an entry carries an `icon` property (a non-null element). -/
def hasIcon (e : MenuEntry) : Bool :=
  e.icon.isSome

/-! ## Properties of the three lists -/

/-- C1: every entry of the exported `UserMenu` list has its `auth` flag set
to `true`. -/
theorem userMenu_auth_true : ∀ e ∈ UserMenu, e.auth = true := by
  decide

theorem userMenu_auth_true_witness :
    (⟨"Избранное", "/favorites", true, some ⟨"SavedMenu"⟩⟩ : MenuEntry) ∈ UserMenu ∧
      (⟨"Избранное", "/favorites", true, some ⟨"SavedMenu"⟩⟩ : MenuEntry).auth = true :=
  ⟨by decide, userMenu_auth_true _ (by decide)⟩

/-- C2: every entry of the exported `NotLoggedInMenu` list has its `auth`
flag set to `false`. -/
theorem notLoggedInMenu_auth_false : ∀ e ∈ NotLoggedInMenu, e.auth = false := by
  decide

theorem notLoggedInMenu_auth_false_witness :
    (⟨"Войти", "/signin", false, none⟩ : MenuEntry) ∈ NotLoggedInMenu ∧
      (⟨"Войти", "/signin", false, none⟩ : MenuEntry).auth = false :=
  ⟨by decide, notLoggedInMenu_auth_false _ (by decide)⟩

/-- C3: in each of the three exported lists (main navigation, `UserMenu`,
`NotLoggedInMenu`), two entries at different positions have different `href`
strings. -/
theorem href_distinct_within_list :
    ∀ l ∈ allLists, ∀ i j : Fin l.length, i ≠ j → (l.get i).href ≠ (l.get j).href := by
  intro l hl
  simp only [allLists, List.mem_cons, List.mem_singleton, List.not_mem_nil, or_false] at hl
  rcases hl with rfl | rfl | rfl <;> decide

theorem href_distinct_within_list_witness :
    UserMenu ∈ allLists ∧
      (⟨0, by decide⟩ : Fin UserMenu.length) ≠ ⟨2, by decide⟩ ∧
      (UserMenu.get ⟨0, by decide⟩).href ≠ (UserMenu.get ⟨2, by decide⟩).href :=
  ⟨by decide, by decide,
    href_distinct_within_list UserMenu (by decide) ⟨0, by decide⟩ ⟨2, by decide⟩ (by decide)⟩

/-- C4: the main navigation list has exactly three entries and, read in
order, their titles are "Альбомы", "Создать альбом", "О проекте". -/
theorem navigation_titles :
    navigation.length = 3 ∧
      titles navigation = ["Альбомы", "Создать альбом", "О проекте"] := by
  decide

/-- C5: filtering the main navigation list by `auth == true` leaves exactly
one entry, and the `href` of that entry is "/recipes/create". -/
theorem navigation_authOnly :
    ∃ e, authOnly navigation = [e] ∧ e.href = "/recipes/create" :=
  ⟨⟨"Создать альбом", "/recipes/create", true, none⟩, by decide, by decide⟩

/-- C6: `UserMenu` has an entry whose `href` is "/change-password", and every
entry of `UserMenu` with that `href` carries an icon element (its `icon` is
present, not null). -/
theorem userMenu_changePassword_icon :
    (∃ e ∈ UserMenu, e.href = "/change-password") ∧
      ∀ e ∈ UserMenu, e.href = "/change-password" → hasIcon e = true := by
  decide

theorem userMenu_changePassword_icon_witness :
    (⟨"Сменить пароль", "/change-password", true, some ⟨"ResetPasswordMenu"⟩⟩ : MenuEntry)
        ∈ UserMenu ∧
      hasIcon ⟨"Сменить пароль", "/change-password", true, some ⟨"ResetPasswordMenu"⟩⟩ = true :=
  ⟨by decide, userMenu_changePassword_icon.2 _ (by decide) (by decide)⟩

/-- C7: the `icon` property occurs only in the user menu: no entry of the
main navigation list and no entry of `NotLoggedInMenu` has an icon, and every
entry of `UserMenu` has one. -/
theorem icon_only_in_userMenu :
    (∀ e ∈ navigation, hasIcon e = false) ∧
      (∀ e ∈ NotLoggedInMenu, hasIcon e = false) ∧
      (∀ e ∈ UserMenu, hasIcon e = true) := by
  decide

theorem icon_only_in_userMenu_witness :
    ((⟨"О проекте", "/about", false, none⟩ : MenuEntry) ∈ navigation ∧
        hasIcon ⟨"О проекте", "/about", false, none⟩ = false) ∧
      ((⟨"Создать аккаунт", "/signup", false, none⟩ : MenuEntry) ∈ NotLoggedInMenu ∧
        hasIcon ⟨"Создать аккаунт", "/signup", false, none⟩ = false) ∧
      ((⟨"Мои подписки", "/subscriptions", true, some ⟨"SubscriptionsMenu"⟩⟩ : MenuEntry)
          ∈ UserMenu ∧
        hasIcon ⟨"Мои подписки", "/subscriptions", true, some ⟨"SubscriptionsMenu"⟩⟩ = true) :=
  ⟨⟨by decide, icon_only_in_userMenu.1 _ (by decide)⟩,
    ⟨by decide, icon_only_in_userMenu.2.1 _ (by decide)⟩,
    ⟨by decide, icon_only_in_userMenu.2.2 _ (by decide)⟩⟩

/-- C9: the icon elements of `UserMenu` are, in list order, built from
`SubscriptionsMenu` (entry with `href` "/subscriptions"), `SavedMenu` (entry
with `href` "/favorites") and `ResetPasswordMenu` (entry with `href`
"/change-password"); these are all the icon names the module refers to, and
each of them is referred to exactly once. -/
theorem userMenu_icons :
    UserMenu.map (fun e => (e.href, e.icon)) =
        [("/subscriptions", some ⟨"SubscriptionsMenu"⟩),
         ("/favorites", some ⟨"SavedMenu"⟩),
         ("/change-password", some ⟨"ResetPasswordMenu"⟩)] ∧
      iconNames UserMenu = ["SubscriptionsMenu", "SavedMenu", "ResetPasswordMenu"] ∧
      iconNames allEntries = iconNames UserMenu ∧
      (iconNames allEntries).count "SubscriptionsMenu" = 1 ∧
      (iconNames allEntries).count "SavedMenu" = 1 ∧
      (iconNames allEntries).count "ResetPasswordMenu" = 1 := by
  decide

/-- C10: the three lists together hold eight entries; two entries at different
positions of the concatenation, whether in the same list or in different
lists, have different `href` strings; and every `href` begins with the
character `/`. -/
theorem href_distinct_across_lists :
    allEntries.length = 8 ∧
      (∀ i j : Fin allEntries.length, i ≠ j →
        (allEntries.get i).href ≠ (allEntries.get j).href) ∧
      ∀ e ∈ allEntries, e.href.front = '/' := by
  decide

theorem href_distinct_across_lists_witness :
    ((⟨1, by decide⟩ : Fin allEntries.length) ≠ ⟨6, by decide⟩ ∧
        (allEntries.get ⟨1, by decide⟩).href ≠ (allEntries.get ⟨6, by decide⟩).href) ∧
      ((⟨"Войти", "/signin", false, none⟩ : MenuEntry) ∈ allEntries ∧
        (⟨"Войти", "/signin", false, none⟩ : MenuEntry).href.front = '/') :=
  ⟨⟨by decide,
      href_distinct_across_lists.2.1 ⟨1, by decide⟩ ⟨6, by decide⟩ (by decide)⟩,
    ⟨by decide, href_distinct_across_lists.2.2 _ (by decide)⟩⟩

end Navigation
